import Mathlib

set_option maxHeartbeats 1000000

noncomputable section

/-! Shallow embedding of the ShadowSWIFT moving-mesh hydrodynamics core:
the per-face particle interactions (src/hydro/Shadowswift/hydro_iact.h) and
the 2d Voronoi grid construction (src/shadowswift/algorithm2d/voronoi.h and
src/shadowfax/voronoi.h).  The C doubles and floats are interpreted as exact
real arithmetic. -/

/-- A 3-component real vector, embedding the C arrays double[3] / float[3]. -/
structure Vec3 where
  a0 : ℝ
  a1 : ℝ
  a2 : ℝ

/-- A 5-component real vector, embedding float[5]: either a primitive state
W = (density, velocity, pressure) or a conserved flux
(mass, momentum, energy). -/
structure Vec5 where
  a0 : ℝ
  a1 : ℝ
  a2 : ℝ
  a3 : ℝ
  a4 : ℝ

/-- Componentwise sum of 5-vectors. -/
def Vec5.add (u w : Vec5) : Vec5 :=
  ⟨u.a0 + w.a0, u.a1 + w.a1, u.a2 + w.a2, u.a3 + w.a3, u.a4 + w.a4⟩

/-- Componentwise difference of 5-vectors. -/
def Vec5.sub (u w : Vec5) : Vec5 :=
  ⟨u.a0 - w.a0, u.a1 - w.a1, u.a2 - w.a2, u.a3 - w.a3, u.a4 - w.a4⟩

/-- Componentwise scaling of a 5-vector. -/
def Vec5.smul (c : ℝ) (w : Vec5) : Vec5 :=
  ⟨c * w.a0, c * w.a1, c * w.a2, c * w.a3, c * w.a4⟩

/-- The fields of struct part that the embedded interactions and the Voronoi
construction read or write: position, particle velocity, primitive
hydrodynamic state (rho, fluid_v, P), the flux time step flux.dt, the
conserved-quantity accumulator flux, the running maximal signal velocity
timestepvars.vmax, the gradient accumulators, and the Voronoi cell geometry. -/
structure part where
  x : Vec3
  v : Vec3
  rho : ℝ
  fluid_v : Vec3
  P : ℝ
  flux_dt : ℝ
  flux : Vec5
  timestepvars_vmax : ℝ
  gradients_rho : Vec3
  gradients_v0 : Vec3
  gradients_v1 : Vec3
  gradients_v2 : Vec3
  gradients_P : Vec3
  geometry_volume : ℝ
  geometry_centroid : Vec3
  geometry_nface : ℕ
  geometry_pair_connections_offset : ℕ
  geometry_min_face_dist : ℝ

/-- The external collaborators consumed by the flux exchange as pluggable
functions (the spec's out-of-scope collaborators): the equation-of-state sound
speed gas_soundspeed_from_pressure(rho, P), the Riemann flux kernel
riemann_solve... (WL, WR, n_unit, vij), and the half-step gradient
extrapolation hydro_gradients_predict (returning the predicted pair Wi, Wj).
They are kept abstract: every theorem below holds for any interpretation. -/
structure HydroFuncs where
  soundspeed : ℝ → ℝ → ℝ
  riemann : Vec5 → Vec5 → Vec3 → Vec3 → Vec5
  predict : part → part → Vec3 → ℝ → Vec3 → ℝ → Vec5 → Vec5 → Vec5 × Vec5

/-- Modelled from the spec: hydro_part_get_primitive_variables
(hydro_getters.h, not under src/) gathers the particle's "mutable primitive
hydrodynamic state (density, velocity vector, pressure)" into the 5-vector W
with the velocity at indices 1-3. -/
def hydro_part_get_primitive_variables (p : part) : Vec5 :=
  ⟨p.rho, p.fluid_v.a0, p.fluid_v.a1, p.fluid_v.a2, p.P⟩

/-- Modelled from the spec: hydro_compute_flux (hydro_flux.h, not under src/)
passes "the boosted states, face normal, and area to an external Riemann-based
flux kernel to obtain a 5-component flux (mass, 3 momentum components,
energy)" and scales the result by the face surface area and by the exchange
time step. -/
def hydro_compute_flux (F : HydroFuncs) (WL WR : Vec5) (n_unit vij : Vec3)
    (surface_area min_dt : ℝ) : Vec5 :=
  Vec5.smul (surface_area * min_dt) (F.riemann WL WR n_unit vij)

/-- Modelled from the spec: hydro_part_update_fluxes_left (hydro_flux.h, not
under src/) decrements the left particle's conserved-quantity accumulator by
the scaled flux vector. -/
def hydro_part_update_fluxes_left (p : part) (totflux : Vec5) : part :=
  { p with flux := Vec5.sub p.flux totflux }

/-- Modelled from the spec: hydro_part_update_fluxes_right (hydro_flux.h, not
under src/) increments the right particle's conserved-quantity accumulator by
the scaled flux vector. -/
def hydro_part_update_fluxes_right (p : part) (totflux : Vec5) : part :=
  { p with flux := Vec5.add p.flux totflux }

/-- The three-way minimum min3 used by runner_iact_flux_exchange (SWIFT's
minmax.h macro min3(x, y, z)). -/
def min3 (a b c : ℝ) : ℝ := min (min a b) c

/-- The flux-exchange time step chosen by runner_iact_flux_exchange
(hydro_iact.h lines 210-214): the smaller of the two particles' flux time
steps when pj's flux time step is positive, and pi's flux time step alone
otherwise. -/
def flux_min_dt (pi pj : part) : ℝ :=
  if 0 < pj.flux_dt then min pi.flux_dt pj.flux_dt else pi.flux_dt

/-- The maximal signal velocity computed for one face by
runner_iact_flux_exchange (hydro_iact.h lines 143-184): the sum of the sound
speeds of the sides with positive density, minus the approaching-velocity
term dvdotdx / r. -/
def flux_exchange_signal_velocity (F : HydroFuncs) (pi pj : part)
    (shift : Vec3) : ℝ :=
  let dx0 := pi.x.a0 - pj.x.a0 - shift.a0
  let dx1 := pi.x.a1 - pj.x.a1 - shift.a1
  let dx2 := pi.x.a2 - pj.x.a2 - shift.a2
  let r2 := dx0 * dx0 + dx1 * dx1 + dx2 * dx2
  let r := Real.sqrt r2
  let Wi := hydro_part_get_primitive_variables pi
  let Wj := hydro_part_get_primitive_variables pj
  let vmax0 := (if 0 < Wi.a0 then F.soundspeed pi.rho pi.P else 0) +
    (if 0 < Wj.a0 then F.soundspeed pj.rho pj.P else 0)
  let dvdr := (pi.v.a0 - pj.v.a0) * dx0 + (pi.v.a1 - pj.v.a1) * dx1 +
    (pi.v.a2 - pj.v.a2) * dx2
  let dvdotdx := (Wi.a1 - Wj.a1) * dx0 + (Wi.a2 - Wj.a2) * dx1 +
    (Wi.a3 - Wj.a3) * dx2
  let dvdotdx2 := min3 dvdr dvdotdx 0
  vmax0 - dvdotdx2 / r

/-- The scaled flux vector computed by runner_iact_flux_exchange
(hydro_iact.h lines 143-247): interface velocity vij following Springel 2010
equation 33, half-step prediction of the primitive states, boost of both
states into the interface frame, and the Riemann-based flux through the
oriented face. -/
def flux_exchange_totflux (F : HydroFuncs) (pi pj : part) (centroid : Vec3)
    (surface_area : ℝ) (shift : Vec3) : Vec5 :=
  let dx0 := pi.x.a0 - pj.x.a0 - shift.a0
  let dx1 := pi.x.a1 - pj.x.a1 - shift.a1
  let dx2 := pi.x.a2 - pj.x.a2 - shift.a2
  let r2 := dx0 * dx0 + dx1 * dx1 + dx2 * dx2
  let r := Real.sqrt r2
  let mid0 := 0.5 * (pi.x.a0 + pj.x.a0 + shift.a0)
  let mid1 := 0.5 * (pi.x.a1 + pj.x.a1 + shift.a1)
  let mid2 := 0.5 * (pi.x.a2 + pj.x.a2 + shift.a2)
  let Wi := hydro_part_get_primitive_variables pi
  let Wj := hydro_part_get_primitive_variables pj
  let fac := ((pj.v.a0 - pi.v.a0) * (centroid.a0 - mid0) +
    (pj.v.a1 - pi.v.a1) * (centroid.a1 - mid1) +
    (pj.v.a2 - pi.v.a2) * (centroid.a2 - mid2)) / r2
  let vij : Vec3 := ⟨0.5 * (pi.v.a0 + pj.v.a0) + fac * dx0,
    0.5 * (pi.v.a1 + pj.v.a1) + fac * dx1,
    0.5 * (pi.v.a2 + pj.v.a2) + fac * dx2⟩
  let min_dt := flux_min_dt pi pj
  let xij_i : Vec3 := ⟨centroid.a0 - pi.x.a0, centroid.a1 - pi.x.a1,
    centroid.a2 - pi.x.a2⟩
  let WW := F.predict pi pj ⟨dx0, dx1, dx2⟩ r xij_i min_dt Wi Wj
  let WiB : Vec5 := ⟨WW.1.a0, WW.1.a1 - vij.a0, WW.1.a2 - vij.a1,
    WW.1.a3 - vij.a2, WW.1.a4⟩
  let WjB : Vec5 := ⟨WW.2.a0, WW.2.a1 - vij.a0, WW.2.a2 - vij.a1,
    WW.2.a3 - vij.a2, WW.2.a4⟩
  let n_unit : Vec3 := ⟨-dx0 / r, -dx1 / r, -dx2 / r⟩
  hydro_compute_flux F WiB WjB n_unit vij surface_area min_dt

/-- The flux calculation between particle i and j (hydro_iact.h lines
139-253): stores the running maximal signal velocity on both particles and
applies the scaled flux to both conserved-quantity accumulators, with
opposite signs.  Returns the pair (updated pi, updated pj). -/
def runner_iact_flux_exchange (F : HydroFuncs) (pi pj : part)
    (centroid : Vec3) (surface_area : ℝ) (shift : Vec3) : part × part :=
  let vmax := flux_exchange_signal_velocity F pi pj shift
  let totflux := flux_exchange_totflux F pi pj centroid surface_area shift
  let pi2 := { pi with timestepvars_vmax := max pi.timestepvars_vmax vmax }
  let pj2 := { pj with timestepvars_vmax := max pj.timestepvars_vmax vmax }
  (hydro_part_update_fluxes_left pi2 totflux,
    hydro_part_update_fluxes_right pj2 totflux)

/-- Update of the slope estimates of particles pi and pj (hydro_iact.h lines
39-91).  The per-field accumulation hydro_gradients_single_quantity
(hydro_gradients.h, not under src/) is taken as an abstract function
gradSingle (qL, qR, c, dx, r, surface_area, grad) returning the new gradient
accumulator.  A zero surface area returns both particles unchanged. -/
def runner_iact_slope_estimate
    (gradSingle : ℝ → ℝ → Vec3 → Vec3 → ℝ → ℝ → Vec3 → Vec3)
    (pi pj : part) (centroid : Vec3) (surface_area : ℝ) (shift : Vec3) :
    part × part :=
  if surface_area = 0 then (pi, pj)
  else
    let dx : Vec3 := ⟨pi.x.a0 - pj.x.a0 - shift.a0,
      pi.x.a1 - pj.x.a1 - shift.a1, pi.x.a2 - pj.x.a2 - shift.a2⟩
    let r2 := dx.a0 * dx.a0 + dx.a1 * dx.a1 + dx.a2 * dx.a2
    let c : Vec3 := ⟨centroid.a0 - 0.5 * (pi.x.a0 + pj.x.a0 + shift.a0),
      centroid.a1 - 0.5 * (pi.x.a1 + pj.x.a1 + shift.a1),
      centroid.a2 - 0.5 * (pi.x.a2 + pj.x.a2 + shift.a2)⟩
    let r := Real.sqrt r2
    let pi2 := { pi with
      gradients_rho := gradSingle pi.rho pj.rho c dx r surface_area
        pi.gradients_rho,
      gradients_v0 := gradSingle pi.fluid_v.a0 pj.fluid_v.a0 c dx r
        surface_area pi.gradients_v0,
      gradients_v1 := gradSingle pi.fluid_v.a1 pj.fluid_v.a1 c dx r
        surface_area pi.gradients_v1,
      gradients_v2 := gradSingle pi.fluid_v.a2 pj.fluid_v.a2 c dx r
        surface_area pi.gradients_v2,
      gradients_P := gradSingle pi.P pj.P c dx r surface_area
        pi.gradients_P }
    if 0 ≤ pj.flux_dt then
      let mindx : Vec3 := ⟨-dx.a0, -dx.a1, -dx.a2⟩
      (pi2, { pj with
        gradients_rho := gradSingle pj.rho pi.rho c mindx r surface_area
          pj.gradients_rho,
        gradients_v0 := gradSingle pj.fluid_v.a0 pi.fluid_v.a0 c mindx r
          surface_area pj.gradients_v0,
        gradients_v1 := gradSingle pj.fluid_v.a1 pi.fluid_v.a1 c mindx r
          surface_area pj.gradients_v1,
        gradients_v2 := gradSingle pj.fluid_v.a2 pi.fluid_v.a2 c mindx r
          surface_area pj.gradients_v2,
        gradients_P := gradSingle pj.P pi.P c mindx r surface_area
          pj.gradients_P })
    else (pi2, pj)

/-- The circumcenter of the triangle through the given 3 points
(algorithm2d/voronoi.h lines 221-238), solved via the perpendicular-bisector
determinant. -/
def voronoi_compute_circumcenter (v0x v0y v1x v1y v2x v2y : ℝ) : ℝ × ℝ :=
  let ax := v1x - v0x
  let ay := v1y - v0y
  let bx := v2x - v0x
  let by_ := v2y - v0y
  let D := 2 * (ax * by_ - ay * bx)
  let a2 := ax * ax + ay * ay
  let b2 := bx * bx + by_ * by_
  let Rx := (by_ * a2 - ay * b2) / D
  let Ry := (ax * b2 - bx * a2) / D
  (v0x + Rx, v0y + Ry)

/-- The midpoint and surface area of the face with the given vertices
(algorithm2d/voronoi.h lines 100-113): the 3-component midpoint (third
component 0 for the 2d implementation) and the segment length. -/
def voronoi_compute_midpoint_area_face (ax ay bx by_ : ℝ) : Vec3 × ℝ :=
  let sx := bx - ax
  let sy := by_ - ay
  (⟨0.5 * (ax + bx), 0.5 * (ay + by_), 0⟩, Real.sqrt (sx * sx + sy * sy))

namespace Shadowfax

/-- The midpoint and surface area of the face with the given vertices in the
independent shadowfax implementation (shadowfax/voronoi.h lines 153-164): the
2-component midpoint and the segment length. -/
def voronoi_compute_midpoint_area_face (ax ay bx by_ : ℝ) : (ℝ × ℝ) × ℝ :=
  let sx := bx - ax
  let sy := by_ - ay
  ((0.5 * (ax + bx), 0.5 * (ay + by_)), Real.sqrt (sx * sx + sy * sy))

end Shadowfax

/-- One entry of the cell_pair_connections queue (struct int2): the index of
a pair within its sid bucket and the storage sid of that bucket. -/
structure Int2 where
  v0 : ℕ
  v1 : ℕ

/-- A Voronoi interface between two neighbouring cells (struct voronoi_pair):
the left particle index (always local), the right particle reference, the
real sid, the surface area and the midpoint of the interface. -/
structure voronoi_pair where
  left_idx : ℤ
  right_idx : ℤ
  sid : ℕ
  surface_area : ℝ
  midpoint : Vec3

/-- The observable state of struct voronoi: for each storage sid the list of
materialized pairs (its length plays the role of pair_index of that sid), the
shared cell_pair_connections queue, and the minimal face surface area.
Allocation capacities (pair_size) are memory management and not modelled. -/
structure voronoi where
  pairs : ℕ → List voronoi_pair
  cell_pair_connections : List Int2
  min_surface_area : ℝ

/-- One triangle of the Delaunay tessellation (struct triangle): vertex
indices, neighbouring triangle indices, and the index of this triangle in
each neighbour, all indexed by the local slot 0, 1, 2. -/
structure triangle where
  vertices : ℤ → ℤ
  neighbours : ℤ → ℤ
  index_in_neighbour : ℤ → ℤ

/-- The read-only view of struct delaunay consumed by the Voronoi builder:
real generator indices live in [vertex_start, vertex_end), placeholder
(dummy) vertices in [vertex_end, ngb_offset), ghost vertices from ngb_offset
on; vertex coordinates, the triangle array, one incident triangle (and the
slot of the vertex in it) per vertex, and the ghost maps to cell sids and to
foreign particle indices. -/
structure delaunay where
  vertex_start : ℤ
  vertex_end : ℤ
  ngb_offset : ℤ
  vertices : ℤ → ℝ × ℝ
  triangle_index : ℤ
  triangles : ℤ → triangle
  vertex_triangles : ℤ → ℤ
  vertex_triangle_index : ℤ → ℤ
  ngb_cell_sids : ℤ → ℕ
  ngb_part_idx : ℤ → ℤ

/-- Modelled from the spec: delaunay_get_vertex_at (algorithm2d/delaunay.h,
not under src/) returns the coordinates of the vertex with the given index
(§6: a vertex array holding the generator positions). -/
def delaunay_get_vertex_at (d : delaunay) (i : ℤ) : ℝ × ℝ := d.vertices i

/-- The search loop of voronoi_add_pair (algorithm2d/voronoi.h lines
157-165): scan the neighbour's recorded connectivity span (nface entries from
its pair_connections_offset) for a connection whose stored pair has the given
left particle index as its right index; the first hit is returned. -/
def voronoi_find_pair_connection (v : voronoi) (offs nface : ℕ)
    (left_part_idx : ℤ) : Option Int2 :=
  (List.range nface).findSome? fun i =>
    let c := v.cell_pair_connections.getD (offs + i) ⟨0, 0⟩
    if ((v.pairs c.v1).getD c.v0 ⟨0, 0, 0, 0, ⟨0, 0, 0⟩⟩).right_idx =
        left_part_idx
    then some c else none

/-- The insertion tail of voronoi_add_pair (algorithm2d/voronoi.h lines
174-215): boundary sids (bit 5 set) are remapped to the fictive storage sid
27 while the stored pair keeps the actual sid with bit 5 cleared; a face
whose surface area is below the configured minimum is rejected without any
state change; otherwise the pair is appended to its storage sid bucket and
its connection pushed onto the cell_pair_connections queue. -/
def voronoi_insert_pair (v : voronoi) (del_vert_idx right_part_idx : ℤ)
    (sid : ℕ) (vertex_start : ℤ) (ax ay bx by_ : ℝ) : voronoi × Bool :=
  let actual_sid := if sid.testBit 5 then sid ^^^ 32 else sid
  let sid2 := if sid.testBit 5 then 27 else sid
  let ma := voronoi_compute_midpoint_area_face ax ay bx by_
  if ma.2 < v.min_surface_area then (v, false)
  else
    let pr : voronoi_pair := ⟨del_vert_idx - vertex_start, right_part_idx,
      actual_sid, ma.2, ma.1⟩
    let connection : Int2 := ⟨(v.pairs sid2).length, sid2⟩
    ({ v with
        pairs := fun s => if s = sid2 then v.pairs sid2 ++ [pr] else v.pairs s,
        cell_pair_connections := v.cell_pair_connections ++ [connection] },
      true)

/-- Add a two-particle pair to the grid (algorithm2d/voronoi.h lines
141-216).  Returns the new grid state and whether the face was accepted (the
C return value 1) or rejected (0).  A local right vertex with a lower index
than the left one whose particle is active means the pair was already added
during the neighbour's own ring walk: the neighbour's connectivity span is
searched and on a hit that existing connection is pushed again; a miss means
the face was degenerate.  Otherwise the pair is inserted fresh (sid 13 for
local pairs, the ghost map's sid for foreign ones). -/
def voronoi_add_pair (v : voronoi) (d : delaunay)
    (del_vert_idx ngb_del_vert_idx : ℤ) (parts : ℤ → part)
    (part_is_active : ℤ → Bool) (ax ay bx by_ : ℝ) : voronoi × Bool :=
  if ngb_del_vert_idx < d.ngb_offset then
    let right_part_idx := ngb_del_vert_idx - d.vertex_start
    if ngb_del_vert_idx < del_vert_idx ∧ part_is_active right_part_idx then
      let ngb := parts right_part_idx
      let left_part_idx := del_vert_idx - d.vertex_start
      match voronoi_find_pair_connection v
          ngb.geometry_pair_connections_offset ngb.geometry_nface
          left_part_idx with
      | some c =>
        ({ v with cell_pair_connections := v.cell_pair_connections ++ [c] },
          true)
      | none => (v, false)
    else
      voronoi_insert_pair v del_vert_idx right_part_idx 13 d.vertex_start
        ax ay bx by_
  else
    voronoi_insert_pair v del_vert_idx
      (d.ngb_part_idx (ngb_del_vert_idx - d.ngb_offset))
      (d.ngb_cell_sids (ngb_del_vert_idx - d.ngb_offset)) d.vertex_start
      ax ay bx by_

/-- Modelled from the spec: geometry2d_compute_centroid_triangle
(algorithm2d/geometry.h, not under src/) returns the centroid of the triangle
through the given 3 points (§4.1 triangle_centroid_measure). -/
def geometry2d_compute_centroid_triangle (ax ay bx by_ cx cy : ℝ) : ℝ × ℝ :=
  ((ax + bx + cx) / 3, (ay + by_ + cy) / 3)

/-- The centroid and volume (unsigned area) of the triangle through the given
3 points (algorithm2d/voronoi.h lines 248-261). -/
def voronoi_compute_centroid_volume_triangle (ax ay bx by_ cx cy : ℝ) :
    (ℝ × ℝ) × ℝ :=
  (geometry2d_compute_centroid_triangle ax ay bx by_ cx cy,
    0.5 * |(bx - ax) * (cy - ay) - (cx - ax) * (by_ - ay)|)

/-- The largest finite double DBL_MAX, initial value of the minimal squared
neighbour distance of every ring walk. -/
def DBL_MAX : ℝ := 2 ^ (1024 : ℕ) - 2 ^ (971 : ℕ)

/-- The cell finalization tail of voronoi_build (algorithm2d/voronoi.h lines
538-559): normalize the volume-weighted centroid accumulators by the cell
volume, estimate the distance from the centroid to the closest face, and
store volume, generator-relative centroid, face count and connectivity-span
offset into the particle.  The source runs this tail for every active
generator, whatever the accumulated volume. -/
def voronoi_finalize_cell (p : part) (cell_volume cc0 cc1 : ℝ) (nface : ℕ)
    (pair_connections_offset : ℕ) (min_ngb_dist2 mnp0 mnp1 : ℝ) : part :=
  let c0 := cc0 / cell_volume
  let c1 := cc1 / cell_volume
  let face0 := 0.5 * (mnp0 + p.x.a0)
  let face1 := 0.5 * (mnp1 + p.x.a1)
  let dxg0 := face0 - p.x.a0
  let dxg1 := face1 - p.x.a1
  let dxc0 := face0 - c0
  let dxc1 := face1 - c1
  let dist := (dxc0 * dxg0 + dxc1 * dxg1) / (0.5 * Real.sqrt min_ngb_dist2)
  { p with
    geometry_volume := cell_volume,
    geometry_centroid := ⟨c0 - p.x.a0, c1 - p.x.a1, 0⟩,
    geometry_nface := nface,
    geometry_pair_connections_offset := pair_connections_offset,
    geometry_min_face_dist := dist }

/-- Whether vertex index vi is a non-ghost, non-dummy vertex whose particle
is active: the negation of one disjunct of the skip test of voronoi_build
(algorithm2d/voronoi.h lines 372-377). -/
def vertex_active_real (d : delaunay) (part_is_active : ℤ → Bool)
    (vi : ℤ) : Bool :=
  decide (d.vertex_start ≤ vi) && decide (vi < d.vertex_end) &&
    part_is_active (vi - d.vertex_start)

/-- Whether vertex index vi is a placeholder (dummy) vertex, with an index in
[vertex_end, ngb_offset). -/
def vertex_is_dummy (d : delaunay) (vi : ℤ) : Bool :=
  decide (d.vertex_end ≤ vi) && decide (vi < d.ngb_offset)

/-- The abnormal outcomes of voronoi_build: the two fatal error() aborts of
the source, and the embedding's fuel exhaustion for the ring-walk loop. -/
inductive BuildError where
  | dummyVertex
  | ghostGenerator
  | outOfFuel

/-- One iteration of the circumcenter loop of voronoi_build
(algorithm2d/voronoi.h lines 363-409): a triangle not linked to any active
non-ghost, non-dummy generator is skipped (its grid vertex is never used); a
remaining triangle that references a placeholder (dummy) vertex is a fatal
topology defect; otherwise the circumcircle midpoint is the grid vertex of
the triangle. -/
def voronoi_build_vertex (d : delaunay) (part_is_active : ℤ → Bool)
    (i : ℕ) : Except Unit (ℝ × ℝ) :=
  let t := d.triangles ((i : ℤ) + 3)
  let v0 := t.vertices 0
  let v1 := t.vertices 1
  let v2 := t.vertices 2
  if !vertex_active_real d part_is_active v0 &&
      !vertex_active_real d part_is_active v1 &&
      !vertex_active_real d part_is_active v2 then Except.ok (0, 0)
  else if vertex_is_dummy d v0 then Except.error ()
  else if vertex_is_dummy d v1 then Except.error ()
  else if vertex_is_dummy d v2 then Except.error ()
  else
    let p0 := d.vertices v0
    let p1 := d.vertices v1
    let p2 := d.vertices v2
    Except.ok (voronoi_compute_circumcenter p0.1 p0.2 p1.1 p1.2 p2.1 p2.2)

/-- Error-propagating map over a list: the embedding of a loop whose body
can abort fatally; the first abort ends the loop. -/
def exceptMapList {α β : Type} (f : α → Except Unit β) : List α → Except Unit (List β)
  | [] => Except.ok []
  | a :: t =>
    match f a, exceptMapList f t with
    | Except.error e, _ => Except.error e
    | Except.ok _, Except.error e => Except.error e
    | Except.ok b, Except.ok bs => Except.ok (b :: bs)

/-- The circumcenter loop of voronoi_build: the Voronoi grid vertices of the
triangles 3 .. triangle_index - 1, or a fatal topology defect. -/
def voronoi_build_vertices (d : delaunay) (part_is_active : ℤ → Bool) :
    Except Unit (List (ℝ × ℝ)) :=
  exceptMapList (voronoi_build_vertex d part_is_active)
    (List.range (d.triangle_index - 3).toNat)

/-- The running state of the ring walk of voronoi_build around one generator:
the grid, the accumulated cell volume and volume-weighted centroid, the face
count, the minimal squared distance to a face-sharing neighbour (with that
neighbour's position), and the current Voronoi vertex position. -/
structure walk_state where
  vor : voronoi
  cell_volume : ℝ
  cell_centroid0 : ℝ
  cell_centroid1 : ℝ
  nface : ℕ
  min_ngb_dist2 : ℝ
  min_ngb_dist_pos0 : ℝ
  min_ngb_dist_pos1 : ℝ
  cx : ℝ
  cy : ℝ

/-- The face bookkeeping of voronoi_build after a voronoi_add_pair call
(algorithm2d/voronoi.h lines 489-503 and 522-536): on an accepted face count
it and update the minimal distance to a neighbouring generator; the grid
state returned by voronoi_add_pair is adopted either way. -/
def voronoi_build_count_face (d : delaunay) (ngb_del_vert_ix : ℤ)
    (gx gy : ℝ) (accepted : Bool) (vor2 : voronoi) (st : walk_state) :
    walk_state :=
  if accepted then
    let ngb_pos := delaunay_get_vertex_at d ngb_del_vert_ix
    let dx0 := ngb_pos.1 - gx
    let dx1 := ngb_pos.2 - gy
    let dist2 := dx0 * dx0 + dx1 * dx1
    if dist2 < st.min_ngb_dist2 then
      { st with
        vor := vor2, nface := st.nface + 1, min_ngb_dist2 := dist2,
        min_ngb_dist_pos0 := ngb_pos.1, min_ngb_dist_pos1 := ngb_pos.2 }
    else { st with vor := vor2, nface := st.nface + 1 }
  else { st with vor := vor2 }

/-- The ring-walk loop of voronoi_build (algorithm2d/voronoi.h lines
464-508), with explicit fuel standing in for the loop's termination: none
when the fuel runs out before the walk returns to the start triangle t0.
Each iteration accumulates the fan triangle (generator, previous vertex,
current vertex) and attempts to register the face towards the opposite
generator of the current triangle. -/
def voronoi_walk_loop (d : delaunay) (vertices : ℤ → ℝ × ℝ)
    (parts : ℤ → part) (part_is_active : ℤ → Bool) (del_vert_ix : ℤ)
    (ax ay gx gy : ℝ) (t0 : ℤ) :
    ℕ → ℤ → ℤ → walk_state → Option walk_state
  | 0, t1, _, st => if t1 = t0 then some st else none
  | fuel + 1, t1, cur_t_ix_in_next_t, st =>
    if t1 = t0 then some st
    else
      let vor_vert_ix := t1 - 3
      let bx := st.cx
      let by_ := st.cy
      let c := vertices vor_vert_ix
      let Vc := voronoi_compute_centroid_volume_triangle ax ay bx by_ c.1 c.2
      let st1 := { st with
        cx := c.1, cy := c.2,
        cell_volume := st.cell_volume + Vc.2,
        cell_centroid0 := st.cell_centroid0 + Vc.2 * Vc.1.1,
        cell_centroid1 := st.cell_centroid1 + Vc.2 * Vc.1.2 }
      let next_t_ix := (cur_t_ix_in_next_t + 2) % 3
      let ngb_del_vert_ix := (d.triangles t1).vertices next_t_ix
      let ap := voronoi_add_pair st1.vor d del_vert_ix ngb_del_vert_ix parts
        part_is_active bx by_ c.1 c.2
      let st2 := voronoi_build_count_face d ngb_del_vert_ix gx gy ap.2 ap.1 st1
      voronoi_walk_loop d vertices parts part_is_active del_vert_ix ax ay gx
        gy t0 fuel ((d.triangles t1).neighbours next_t_ix)
        ((d.triangles t1).index_in_neighbour next_t_ix) st2

/-- The per-generator body of voronoi_build (algorithm2d/voronoi.h lines
413-560): guard against ghost generators, set up the ring walk from one
incident triangle of the generator, walk the ring, close the last edge and
finalize the cell geometry into the particle. -/
def voronoi_build_cell (fuel : ℕ) (v : voronoi) (d : delaunay)
    (vertices : ℤ → ℝ × ℝ) (parts : ℤ → part) (part_is_active : ℤ → Bool)
    (i : ℕ) : Except BuildError (voronoi × (ℤ → part)) :=
  let p := parts (i : ℤ)
  let pair_connections_offset := v.cell_pair_connections.length
  let gx := p.x.a0
  let gy := p.x.a1
  let del_vert_ix : ℤ := (i : ℤ) + d.vertex_start
  if d.vertex_end ≤ del_vert_ix then Except.error BuildError.ghostGenerator
  else
    let a := d.vertices del_vert_ix
    let t0 := d.vertex_triangles del_vert_ix
    let del_vert_ix_in_t0 := d.vertex_triangle_index del_vert_ix
    let first_vor_vert_ix := t0 - 3
    let c := vertices first_vor_vert_ix
    let next_t_ix := (del_vert_ix_in_t0 + 1) % 3
    let first_ngb_del_vert_ix := (d.triangles t0).vertices next_t_ix
    let t1 := (d.triangles t0).neighbours next_t_ix
    let cur_t_ix_in_next_t := (d.triangles t0).index_in_neighbour next_t_ix
    let st0 : walk_state := ⟨v, 0, 0, 0, 0, DBL_MAX, 0, 0, c.1, c.2⟩
    match voronoi_walk_loop d vertices parts part_is_active del_vert_ix a.1
        a.2 gx gy t0 fuel t1 cur_t_ix_in_next_t st0 with
    | none => Except.error BuildError.outOfFuel
    | some st =>
      let bx := st.cx
      let by_ := st.cy
      let c2 := vertices first_vor_vert_ix
      let Vc := voronoi_compute_centroid_volume_triangle a.1 a.2 bx by_ c2.1
        c2.2
      let st1 := { st with
        cell_volume := st.cell_volume + Vc.2,
        cell_centroid0 := st.cell_centroid0 + Vc.2 * Vc.1.1,
        cell_centroid1 := st.cell_centroid1 + Vc.2 * Vc.1.2 }
      let ap := voronoi_add_pair st1.vor d del_vert_ix first_ngb_del_vert_ix
        parts part_is_active bx by_ c2.1 c2.2
      let st2 := voronoi_build_count_face d first_ngb_del_vert_ix gx gy ap.2
        ap.1 st1
      let p2 := voronoi_finalize_cell p st2.cell_volume st2.cell_centroid0
        st2.cell_centroid1 st2.nface pair_connections_offset
        st2.min_ngb_dist2 st2.min_ngb_dist_pos0 st2.min_ngb_dist_pos1
      Except.ok (st2.vor, fun j => if j = (i : ℤ) then p2 else parts j)

/-- Initialise the Voronoi grid from the Delaunay tessellation
(algorithm2d/voronoi.h lines 344-564): compute the grid vertices (the
circumcircle midpoints of the triangles), then loop over the generators and
build the Voronoi cell of every active one; inactive generators build no
cell.  fuel bounds the ring-walk loops of the embedding. -/
def voronoi_build (fuel : ℕ) (v : voronoi) (d : delaunay)
    (parts : ℤ → part) (part_is_active : ℤ → Bool) (count : ℕ) :
    Except BuildError (voronoi × (ℤ → part)) :=
  match voronoi_build_vertices d part_is_active with
  | Except.error _ => Except.error BuildError.dummyVertex
  | Except.ok verts =>
    let vertices : ℤ → ℝ × ℝ := fun ix => verts.getD ix.toNat (0, 0)
    (List.range count).foldlM
      (fun st (i : ℕ) =>
        if part_is_active (i : ℤ) then
          voronoi_build_cell fuel st.1 d vertices st.2 part_is_active i
        else Except.ok st)
      (v, parts)

/-- The zero 3-vector, used by closed concrete statements. -/
def v3zero : Vec3 := ⟨0, 0, 0⟩

/-- The zero 5-vector, used by closed concrete statements. -/
def v5zero : Vec5 := ⟨0, 0, 0, 0, 0⟩

/-- A concrete particle with every field zero, the base of the closed
witness and counterexample statements. -/
def part0 : part :=
  ⟨v3zero, v3zero, 0, v3zero, 0, 0, v5zero, 0, v3zero, v3zero, v3zero,
    v3zero, v3zero, 0, v3zero, 0, 0, 0⟩

/-- A concrete particle with flux time step 1. -/
def part_dt1 : part := { part0 with flux_dt := 1 }

/-- A concrete particle with flux time step -1: not due for a flux exchange
this step. -/
def part_dtm1 : part := { part0 with flux_dt := -1 }

/-- A concrete particle with flux time step 2. -/
def part_dt2 : part := { part0 with flux_dt := 2 }

/-- Concrete collaborator functions for closed statements: zero sound speed,
a constant unit Riemann flux and an identity half-step prediction. -/
def hfuncs0 : HydroFuncs :=
  ⟨fun _ _ => 0, fun _ _ _ _ => ⟨1, 1, 1, 1, 1⟩,
    fun _ _ _ _ _ _ Wi Wj => (Wi, Wj)⟩

/-- C10: the two independent implementations of
voronoi_compute_midpoint_area_face (shadowfax/voronoi.h lines 153-164 and
algorithm2d/voronoi.h lines 100-113) agree for all inputs ax, ay, bx, by:
both return the surface area sqrt((bx-ax)^2 + (by-ay)^2) and the midpoint
components 0.5*(ax+bx) and 0.5*(ay+by), and the shadowswift version's third
midpoint component is 0. -/
theorem c10_midpoint_area_face_agree (ax ay bx by_ : ℝ) :
    (voronoi_compute_midpoint_area_face ax ay bx by_).2 =
      (Shadowfax.voronoi_compute_midpoint_area_face ax ay bx by_).2 ∧
    (voronoi_compute_midpoint_area_face ax ay bx by_).2 =
      Real.sqrt ((bx - ax) * (bx - ax) + (by_ - ay) * (by_ - ay)) ∧
    (voronoi_compute_midpoint_area_face ax ay bx by_).1.a0 =
      (Shadowfax.voronoi_compute_midpoint_area_face ax ay bx by_).1.1 ∧
    (voronoi_compute_midpoint_area_face ax ay bx by_).1.a1 =
      (Shadowfax.voronoi_compute_midpoint_area_face ax ay bx by_).1.2 ∧
    (voronoi_compute_midpoint_area_face ax ay bx by_).1.a0 =
      0.5 * (ax + bx) ∧
    (voronoi_compute_midpoint_area_face ax ay bx by_).1.a1 =
      0.5 * (ay + by_) ∧
    (voronoi_compute_midpoint_area_face ax ay bx by_).1.a2 = 0 :=
  ⟨rfl, rfl, rfl, rfl, rfl, rfl, rfl⟩

/-- C1: runner_iact_flux_exchange applies the identical scaled flux vector
to both endpoints with opposite sign: pi's conserved-quantity accumulator is
decremented and pj's is incremented by exactly the same 5-component amount,
the Riemann flux scaled by the face area times the chosen time step.  The
statement is universally quantified over pj, so it holds in particular when
pj is not due for integration this step (pj.flux_dt < 0). -/
theorem c1_flux_exchange_conservative (F : HydroFuncs) (pi pj : part)
    (centroid : Vec3) (surface_area : ℝ) (shift : Vec3) :
    (runner_iact_flux_exchange F pi pj centroid surface_area shift).1.flux =
      Vec5.sub pi.flux
        (flux_exchange_totflux F pi pj centroid surface_area shift) ∧
    (runner_iact_flux_exchange F pi pj centroid surface_area shift).2.flux =
      Vec5.add pj.flux
        (flux_exchange_totflux F pi pj centroid surface_area shift) ∧
    ∃ G : Vec5,
      flux_exchange_totflux F pi pj centroid surface_area shift =
        Vec5.smul (surface_area * flux_min_dt pi pj) G :=
  ⟨rfl, rfl, ⟨_, rfl⟩⟩

/-- C2 counterexample: with pi.flux_dt = 1 and pj.flux_dt = -1 (pj not due
for integration), face area 1 and a unit Riemann flux, the mass component of
the flux applied by the code is 1 (scaled by pi.flux_dt alone), not the
1 * min(pi.flux_dt, pj.flux_dt) * 1 = -1 the claim dictates: the flux is not
scaled by the smaller of the two time steps for ALL values of the two time
steps. -/
theorem c2_min_dt_counterexample :
    (flux_exchange_totflux hfuncs0 part_dt1 part_dtm1 v3zero 1 v3zero).a0 ≠
      1 * min part_dt1.flux_dt part_dtm1.flux_dt * 1 := by
  norm_num [flux_exchange_totflux, hydro_compute_flux, hfuncs0, flux_min_dt,
    part_dt1, part_dtm1, part0, Vec5.smul]

/-- C2 amended: the flux computed by runner_iact_flux_exchange is scaled by
the face area times flux_min_dt, where flux_min_dt is the smaller of the two
particles' flux time steps whenever pj's flux time step is positive, and
pi's flux time step alone otherwise (pj not due for a flux exchange this
step). -/
theorem c2_min_dt_amended (F : HydroFuncs) (pi pj : part) (centroid : Vec3)
    (surface_area : ℝ) (shift : Vec3) :
    (∃ G : Vec5,
      flux_exchange_totflux F pi pj centroid surface_area shift =
        Vec5.smul (surface_area * flux_min_dt pi pj) G) ∧
    (0 < pj.flux_dt → flux_min_dt pi pj = min pi.flux_dt pj.flux_dt) ∧
    (pj.flux_dt ≤ 0 → flux_min_dt pi pj = pi.flux_dt) :=
  ⟨⟨_, rfl⟩, fun h => if_pos h, fun h => if_neg (not_lt.mpr h)⟩

/-- C9: a zero surface area makes runner_iact_slope_estimate return both
particles entirely unchanged: no gradient accumulation happens for any field
of either particle. -/
theorem c9_slope_estimate_zero_area
    (gradSingle : ℝ → ℝ → Vec3 → Vec3 → ℝ → ℝ → Vec3 → Vec3)
    (pi pj : part) (centroid : Vec3) (surface_area : ℝ) (shift : Vec3)
    (h : surface_area = 0) :
    runner_iact_slope_estimate gradSingle pi pj centroid surface_area shift =
      (pi, pj) := by
  subst h
  simp [runner_iact_slope_estimate]

/-- C9 witness: the zero-area early return of runner_iact_slope_estimate at
a concrete input. -/
theorem c9_slope_estimate_zero_area_witness :
    runner_iact_slope_estimate (fun _ _ _ _ _ _ g => g) part0 part0 v3zero 0
      v3zero = (part0, part0) :=
  c9_slope_estimate_zero_area (fun _ _ _ _ _ _ g => g) part0 part0 v3zero 0
    v3zero rfl

/-- C8: for three non-collinear input points (the perpendicular-bisector
determinant D = 2*((v1-v0) x (v2-v0)) is nonzero) the point returned by
voronoi_compute_circumcenter is equidistant from all three input points,
interpreting the double arithmetic as exact real arithmetic. -/
theorem c8_circumcenter_equidistant (v0x v0y v1x v1y v2x v2y : ℝ)
    (hD : 2 * ((v1x - v0x) * (v2y - v0y) - (v1y - v0y) * (v2x - v0x)) ≠ 0) :
    Real.sqrt
        (((voronoi_compute_circumcenter v0x v0y v1x v1y v2x v2y).1 - v0x) ^ 2 +
          ((voronoi_compute_circumcenter v0x v0y v1x v1y v2x v2y).2 - v0y) ^ 2) =
      Real.sqrt
        (((voronoi_compute_circumcenter v0x v0y v1x v1y v2x v2y).1 - v1x) ^ 2 +
          ((voronoi_compute_circumcenter v0x v0y v1x v1y v2x v2y).2 - v1y) ^ 2) ∧
    Real.sqrt
        (((voronoi_compute_circumcenter v0x v0y v1x v1y v2x v2y).1 - v0x) ^ 2 +
          ((voronoi_compute_circumcenter v0x v0y v1x v1y v2x v2y).2 - v0y) ^ 2) =
      Real.sqrt
        (((voronoi_compute_circumcenter v0x v0y v1x v1y v2x v2y).1 - v2x) ^ 2 +
          ((voronoi_compute_circumcenter v0x v0y v1x v1y v2x v2y).2 - v2y) ^ 2) := by
  constructor
  · refine congrArg Real.sqrt ?_
    simp only [voronoi_compute_circumcenter]
    field_simp
    ring
  · refine congrArg Real.sqrt ?_
    simp only [voronoi_compute_circumcenter]
    field_simp
    ring

/-- C8 witness: the circumcenter of the concrete non-collinear triple
(0,0), (1,0), (0,1) is equidistant from the three points. -/
theorem c8_circumcenter_equidistant_witness :
    2 * ((1 - 0) * (1 - 0) - (0 - 0) * (0 - 0)) ≠ (0 : ℝ) ∧
    (Real.sqrt
        (((voronoi_compute_circumcenter 0 0 1 0 0 1).1 - 0) ^ 2 +
          ((voronoi_compute_circumcenter 0 0 1 0 0 1).2 - 0) ^ 2) =
      Real.sqrt
        (((voronoi_compute_circumcenter 0 0 1 0 0 1).1 - 1) ^ 2 +
          ((voronoi_compute_circumcenter 0 0 1 0 0 1).2 - 0) ^ 2) ∧
    Real.sqrt
        (((voronoi_compute_circumcenter 0 0 1 0 0 1).1 - 0) ^ 2 +
          ((voronoi_compute_circumcenter 0 0 1 0 0 1).2 - 0) ^ 2) =
      Real.sqrt
        (((voronoi_compute_circumcenter 0 0 1 0 0 1).1 - 0) ^ 2 +
          ((voronoi_compute_circumcenter 0 0 1 0 0 1).2 - 1) ^ 2)) :=
  ⟨by norm_num, c8_circumcenter_equidistant 0 0 1 0 0 1 (by norm_num)⟩

/-- C3: when an interior face reaches voronoi_add_pair from its
second-arriving side (the right vertex is local, has a lower index than the
left one and its particle is active, so the pair was materialized during the
neighbour's own ring walk), a hit while searching the neighbour's recorded
connectivity span for an entry whose stored right index equals the caller's
own index makes the call push that existing (slot, sid) connection and
report success: every sid bucket of the pair array is left unchanged, so no
second copy of the pair is created and the face ends up in exactly the two
endpoint cells' connectivity spans. -/
theorem c3_add_pair_dedup (v : voronoi) (d : delaunay)
    (del_vert_idx ngb_del_vert_idx : ℤ) (parts : ℤ → part)
    (part_is_active : ℤ → Bool) (ax ay bx by_ : ℝ) (c : Int2)
    (h1 : ngb_del_vert_idx < d.ngb_offset)
    (h2 : ngb_del_vert_idx < del_vert_idx)
    (h3 : part_is_active (ngb_del_vert_idx - d.vertex_start) = true)
    (h4 : voronoi_find_pair_connection v
      (parts (ngb_del_vert_idx - d.vertex_start)).geometry_pair_connections_offset
      (parts (ngb_del_vert_idx - d.vertex_start)).geometry_nface
      (del_vert_idx - d.vertex_start) = some c) :
    (voronoi_add_pair v d del_vert_idx ngb_del_vert_idx parts part_is_active
        ax ay bx by_).1.pairs = v.pairs ∧
    (voronoi_add_pair v d del_vert_idx ngb_del_vert_idx parts part_is_active
        ax ay bx by_).1.cell_pair_connections =
      v.cell_pair_connections ++ [c] ∧
    (voronoi_add_pair v d del_vert_idx ngb_del_vert_idx parts part_is_active
        ax ay bx by_).2 = true := by
  simp [voronoi_add_pair, h1, h2, h3, h4]

/-- A concrete voronoi pair between the local cells 0 (left) and 1 (right),
stored under sid 13, for the C3 witness. -/
def pair01 : voronoi_pair := ⟨0, 1, 13, 1, ⟨0, 0, 0⟩⟩

/-- A concrete grid holding the single pair pair01 and its connection, as
recorded by cell 0's earlier ring walk. -/
def vor1 : voronoi := ⟨fun s => if s = 13 then [pair01] else [], [⟨0, 13⟩], 1⟩

/-- A concrete empty grid with minimal face surface area 1. -/
def vor_empty : voronoi := ⟨fun _ => [], [], 1⟩

/-- A concrete delaunay index layout for the add_pair witnesses: local
generators 0 and 1 (vertex_start 0, vertex_end 2), ghosts from index 10. -/
def dlocal : delaunay :=
  ⟨0, 2, 10, fun _ => (0, 0), 3,
    fun _ => ⟨fun _ => 0, fun _ => 0, fun _ => 0⟩,
    fun _ => 0, fun _ => 0, fun _ => 0, fun _ => 0⟩

/-- A concrete parts array whose every particle records one face: the
pair01 connection at connectivity offset 0. -/
def parts1 : ℤ → part := fun _ => { part0 with geometry_nface := 1 }

/-- C3 witness: cell 1 rediscovers the face towards the lower-priority
active cell 0 that cell 0 already materialized; the stored connection (slot
0, sid 13) is pushed again and the pair arrays are unchanged. -/
theorem c3_add_pair_dedup_witness :
    (voronoi_add_pair vor1 dlocal 1 0 parts1 (fun _ => true) 0 0 0
        0).1.pairs = vor1.pairs ∧
    (voronoi_add_pair vor1 dlocal 1 0 parts1 (fun _ => true) 0 0 0
        0).1.cell_pair_connections =
      vor1.cell_pair_connections ++ [(⟨0, 13⟩ : Int2)] ∧
    (voronoi_add_pair vor1 dlocal 1 0 parts1 (fun _ => true) 0 0 0 0).2 =
      true :=
  c3_add_pair_dedup vor1 dlocal 1 0 parts1 (fun _ => true) 0 0 0 0 ⟨0, 13⟩
    (by decide) (by decide) rfl rfl

/-- C4: a first-arrival call of voronoi_add_pair (any call that does not
take the already-added search branch) whose computed surface measure is
below the configured minimum min_surface_area is rejected: the call returns
0 and leaves the grid entirely unchanged — no sid bucket's pair count is
incremented and no cell-pair connection is pushed, so the face is counted in
neither cell's face count. -/
theorem c4_add_pair_rejects_degenerate (v : voronoi) (d : delaunay)
    (del_vert_idx ngb_del_vert_idx : ℤ) (parts : ℤ → part)
    (part_is_active : ℤ → Bool) (ax ay bx by_ : ℝ)
    (hfirst : ngb_del_vert_idx < d.ngb_offset →
      ¬(ngb_del_vert_idx < del_vert_idx ∧
        part_is_active (ngb_del_vert_idx - d.vertex_start) = true))
    (harea : (voronoi_compute_midpoint_area_face ax ay bx by_).2 <
      v.min_surface_area) :
    voronoi_add_pair v d del_vert_idx ngb_del_vert_idx parts part_is_active
      ax ay bx by_ = (v, false) := by
  by_cases h : ngb_del_vert_idx < d.ngb_offset
  · simp [voronoi_add_pair, voronoi_insert_pair, h, hfirst h, harea]
  · simp [voronoi_add_pair, voronoi_insert_pair, h, harea]

/-- C4 witness: a coincident-endpoint (zero-length) face arriving from a
ghost neighbour is rejected by voronoi_add_pair and the grid is unchanged. -/
theorem c4_add_pair_rejects_degenerate_witness :
    voronoi_add_pair vor1 dlocal 0 10 parts1 (fun _ => true) 0 0 0 0 =
      (vor1, false) :=
  c4_add_pair_rejects_degenerate vor1 dlocal 0 10 parts1 (fun _ => true)
    0 0 0 0 (fun h => absurd h (by decide))
    (by norm_num [voronoi_compute_midpoint_area_face, vor1, Real.sqrt_zero])

/-- One incident face of a generator as fed to runner_iact_flux_exchange
during the flux pass: the neighbouring particle and the face's centroid,
surface area and periodic position shift. -/
structure flux_face where
  pj : part
  centroid : Vec3
  surface_area : ℝ
  shift : Vec3

/-- Process the incident faces of one generator through
runner_iact_flux_exchange in the given order, threading the owner particle's
state (each face's neighbour update lands on a distinct particle and is
dropped here). -/
def process_incident_faces (F : HydroFuncs) (p : part)
    (l : List flux_face) : part :=
  l.foldl
    (fun q f =>
      (runner_iact_flux_exchange F q f.pj f.centroid f.surface_area
        f.shift).1) p

/-- The flux exchange updates the owner's running maximal signal velocity by
fmax with the face's signal velocity, and preserves every field the signal
velocity reads (position, velocities, primitive state, flux time step), so
the per-face signal velocities do not depend on the processing order. -/
theorem runner_iact_flux_exchange_vmax_step (F : HydroFuncs) (p : part)
    (f : flux_face) (q : part) (sh : Vec3) :
    (runner_iact_flux_exchange F p f.pj f.centroid f.surface_area
        f.shift).1.timestepvars_vmax =
      max p.timestepvars_vmax
        (flux_exchange_signal_velocity F p f.pj f.shift) ∧
    flux_exchange_signal_velocity F
        (runner_iact_flux_exchange F p f.pj f.centroid f.surface_area
          f.shift).1 q sh =
      flux_exchange_signal_velocity F p q sh :=
  ⟨rfl, rfl⟩

/-- After processing a list of incident faces, the owner's running maximal
signal velocity is the fold of fmax over the per-face signal velocities of
the original particle state. -/
theorem process_incident_faces_vmax (F : HydroFuncs) (l : List flux_face) :
    ∀ p : part,
      (process_incident_faces F p l).timestepvars_vmax =
        l.foldl
          (fun a f => max a (flux_exchange_signal_velocity F p f.pj f.shift))
          p.timestepvars_vmax := by
  induction l with
  | nil => intro p; rfl
  | cons f t ih =>
    intro p
    exact ih ((runner_iact_flux_exchange F p f.pj f.centroid f.surface_area
      f.shift).1)

/-- A fold of fmax is invariant under permutations of the list. -/
theorem foldl_max_perm {α : Type} (g : α → ℝ) {l l2 : List α}
    (h : l.Perm l2) :
    ∀ b : ℝ,
      l.foldl (fun a x => max a (g x)) b =
        l2.foldl (fun a x => max a (g x)) b := by
  induction h with
  | nil => intro b; rfl
  | cons x _ ih =>
    intro b
    simp only [List.foldl_cons]
    exact ih (max b (g x))
  | swap x y l =>
    intro b
    simp only [List.foldl_cons]
    rw [sup_right_comm]
  | trans _ _ ih1 ih2 =>
    intro b
    rw [ih1 b, ih2 b]

/-- C7: the running maximal signal velocity of a generator after processing
all of its incident faces through runner_iact_flux_exchange is invariant
under any reordering of those faces: the per-face update is a fold with
fmax of the old value and the face's signal velocity, which is commutative
and associative, not a sum. -/
theorem c7_vmax_reorder_invariant (F : HydroFuncs) (p : part)
    {l l2 : List flux_face} (h : l.Perm l2) :
    (process_incident_faces F p l).timestepvars_vmax =
      (process_incident_faces F p l2).timestepvars_vmax := by
  rw [process_incident_faces_vmax F l p, process_incident_faces_vmax F l2 p]
  exact foldl_max_perm
    (fun f => flux_exchange_signal_velocity F p f.pj f.shift) h
    p.timestepvars_vmax

/-- A concrete face towards a particle with flux time step 1. -/
def face_a : flux_face := ⟨part_dt1, v3zero, 1, v3zero⟩

/-- A concrete face towards a particle with flux time step 2. -/
def face_b : flux_face := ⟨part_dt2, ⟨1, 0, 0⟩, 2, v3zero⟩

/-- C7 witness: processing the two concrete faces in either order yields the
same running maximal signal velocity. -/
theorem c7_vmax_reorder_invariant_witness :
    (process_incident_faces hfuncs0 part0 [face_a, face_b]).timestepvars_vmax =
      (process_incident_faces hfuncs0 part0 [face_b, face_a]).timestepvars_vmax :=
  c7_vmax_reorder_invariant hfuncs0 part0 (List.Perm.swap face_b face_a [])

/-- If any element of the list aborts, the error-propagating map aborts. -/
theorem exceptMapList_error {α β : Type} (f : α → Except Unit β)
    {l : List α} {a : α} (ha : a ∈ l) (hf : f a = Except.error ()) :
    exceptMapList f l = Except.error () := by
  induction l with
  | nil => cases ha
  | cons x t ih =>
    rcases List.mem_cons.mp ha with rfl | hmem
    · simp [exceptMapList, hf]
    · cases hfx : f x with
      | error e => cases e; simp [exceptMapList, hfx]
      | ok b => simp [exceptMapList, hfx, ih hmem]

/-- C6: if any Delaunay triangle of the build range that is linked to an
active, non-ghost, non-dummy generator references a placeholder (dummy)
vertex — an index in [vertex_end, ngb_offset) — then voronoi_build aborts
with the fatal dummy-vertex error rather than continuing: the topology
defect is never locally absorbed. -/
theorem c6_dummy_vertex_fatal (fuel : ℕ) (v : voronoi) (d : delaunay)
    (parts : ℤ → part) (part_is_active : ℤ → Bool) (count : ℕ) (i : ℕ)
    (hi : i ∈ List.range (d.triangle_index - 3).toNat)
    (hlinked :
      vertex_active_real d part_is_active
          ((d.triangles ((i : ℤ) + 3)).vertices 0) = true ∨
      vertex_active_real d part_is_active
          ((d.triangles ((i : ℤ) + 3)).vertices 1) = true ∨
      vertex_active_real d part_is_active
          ((d.triangles ((i : ℤ) + 3)).vertices 2) = true)
    (hdummy :
      vertex_is_dummy d ((d.triangles ((i : ℤ) + 3)).vertices 0) = true ∨
      vertex_is_dummy d ((d.triangles ((i : ℤ) + 3)).vertices 1) = true ∨
      vertex_is_dummy d ((d.triangles ((i : ℤ) + 3)).vertices 2) = true) :
    voronoi_build fuel v d parts part_is_active count =
      Except.error BuildError.dummyVertex := by
  have hskip : (!vertex_active_real d part_is_active
        ((d.triangles ((i : ℤ) + 3)).vertices 0) &&
      !vertex_active_real d part_is_active
        ((d.triangles ((i : ℤ) + 3)).vertices 1) &&
      !vertex_active_real d part_is_active
        ((d.triangles ((i : ℤ) + 3)).vertices 2)) = false := by
    rcases hlinked with h | h | h <;> simp [h]
  have hv : voronoi_build_vertex d part_is_active i = Except.error () := by
    rcases hdummy with h | h | h <;>
      simp [voronoi_build_vertex, hskip, h]
  have hverr : voronoi_build_vertices d part_is_active = Except.error () :=
    exceptMapList_error (voronoi_build_vertex d part_is_active) hi hv
  simp [voronoi_build, hverr]

/-- A concrete delaunay state whose only real triangle is linked to the
active generator 0 and references the placeholder vertex 1 (placeholders
occupy [1, 5)). -/
def ddummy : delaunay :=
  ⟨0, 1, 5, fun _ => (0, 0), 4,
    fun _ => ⟨fun k => if k = 0 then 0 else if k = 1 then 1 else 2,
      fun _ => 3, fun _ => 0⟩,
    fun _ => 3, fun _ => 0, fun _ => 0, fun _ => 0⟩

/-- C6 witness: the concrete build over ddummy aborts with the dummy-vertex
defect. -/
theorem c6_dummy_vertex_fatal_witness :
    voronoi_build 5 vor_empty ddummy (fun _ => part0) (fun _ => true) 1 =
      Except.error BuildError.dummyVertex :=
  c6_dummy_vertex_fatal 5 vor_empty ddummy (fun _ => part0) (fun _ => true)
    1 0 (by decide) (Or.inl (by decide)) (Or.inr (Or.inl (by decide)))

/-- C5 amended: after ring closure voronoi_build always normalizes the
centroid accumulators by the accumulated cell volume and always stores the
geometry fields (volume, relative centroid, face count, connectivity-span
offset) into the particle, for every value of the accumulated volume: the
source has no near-zero-volume skip, so the division and the store also
happen for a cell whose accumulated volume is zero. -/
theorem c5_finalize_unconditional (p : part) (cell_volume cc0 cc1 : ℝ)
    (nface pair_connections_offset : ℕ)
    (min_ngb_dist2 mnp0 mnp1 : ℝ) :
    (voronoi_finalize_cell p cell_volume cc0 cc1 nface
        pair_connections_offset min_ngb_dist2 mnp0 mnp1).geometry_volume =
      cell_volume ∧
    (voronoi_finalize_cell p cell_volume cc0 cc1 nface
        pair_connections_offset min_ngb_dist2 mnp0
        mnp1).geometry_centroid.a0 = cc0 / cell_volume - p.x.a0 ∧
    (voronoi_finalize_cell p cell_volume cc0 cc1 nface
        pair_connections_offset min_ngb_dist2 mnp0
        mnp1).geometry_centroid.a1 = cc1 / cell_volume - p.x.a1 ∧
    (voronoi_finalize_cell p cell_volume cc0 cc1 nface
        pair_connections_offset min_ngb_dist2 mnp0 mnp1).geometry_nface =
      nface ∧
    (voronoi_finalize_cell p cell_volume cc0 cc1 nface
        pair_connections_offset min_ngb_dist2 mnp0
        mnp1).geometry_pair_connections_offset = pair_connections_offset :=
  ⟨rfl, rfl, rfl, rfl, rfl⟩

/-- A ring walk that is already back at its start triangle returns its state
unchanged, whatever the fuel. -/
theorem voronoi_walk_loop_done (d : delaunay) (vertices : ℤ → ℝ × ℝ)
    (parts : ℤ → part) (part_is_active : ℤ → Bool) (del_vert_ix : ℤ)
    (ax ay gx gy : ℝ) (t0 : ℤ) (fuel : ℕ) (cur : ℤ) (st : walk_state) :
    voronoi_walk_loop d vertices parts part_is_active del_vert_ix ax ay gx
      gy t0 fuel t0 cur st = some st := by
  cases fuel <;> simp [voronoi_walk_loop]

/-- The generator and ghost positions of the degenerate-cell
counterexample: vertex 0 (the only local generator) at the origin, ghost
vertices 1 and 2 completing one triangle. -/
def vertsCE : ℤ → ℝ × ℝ := fun i =>
  if i = 0 then (0, 0) else if i = 1 then (2, 0) else (0, 2)

/-- The single real triangle of the degenerate-cell counterexample, its own
neighbour across every edge: the ring walk around generator 0 closes
immediately, so the cell accumulates exactly one degenerate fan triangle and
its volume is 0. -/
def triCE : triangle :=
  ⟨fun k => if k = 0 then 0 else if k = 1 then 1 else 2,
    fun _ => 3, fun _ => 0⟩

/-- The concrete Delaunay state of the degenerate-cell counterexample: one
local generator (vertex 0), no placeholder vertices (ghosts start at index
1), and the single real triangle triCE (index 3). -/
def dCE : delaunay :=
  ⟨0, 1, 1, vertsCE, 4, fun _ => triCE, fun _ => 3, fun _ => 0,
    fun _ => 0, fun _ => 0⟩

/-- The concrete particle of the degenerate-cell counterexample, with
sentinel geometry volume 42 so that an overwrite by the build is
observable. -/
def partCE : part := { part0 with geometry_volume := 42 }

/-- The circumcenter loop of the degenerate-cell counterexample: the single
real triangle (0,0), (2,0), (0,2) has circumcenter (1,1). -/
theorem vertsCE_eval :
    voronoi_build_vertices dCE (fun _ => true) =
      Except.ok [((1 : ℝ), (1 : ℝ))] := by
  norm_num [voronoi_build_vertices, exceptMapList, voronoi_build_vertex,
    dCE, triCE, vertsCE, vertex_active_real, vertex_is_dummy,
    voronoi_compute_circumcenter, List.range_succ]

/-- The single face attempt of the degenerate-cell counterexample: the face
from (1,1) to (1,1) has zero length, below the minimal surface area 1, so
voronoi_add_pair rejects it and leaves the grid unchanged. -/
theorem addPairCE :
    voronoi_add_pair vor_empty dCE 0 1 (fun _ => partCE) (fun _ => true)
      1 1 1 1 = (vor_empty, false) := by
  have harea :
      (voronoi_compute_midpoint_area_face (1:ℝ) 1 1 1).2 < (1:ℝ) := by
    norm_num [voronoi_compute_midpoint_area_face, Real.sqrt_zero]
  norm_num [voronoi_add_pair, voronoi_insert_pair, dCE, vor_empty, harea,
    Nat.zero_testBit]

/-- The per-generator body of the degenerate-cell counterexample: generator
0's ring walk closes immediately, the single fan triangle and the single
face attempt are degenerate, and the cell is nevertheless finalized with
accumulated volume 0. -/
theorem buildCellCE (vertices : ℤ → ℝ × ℝ)
    (hv : vertices 0 = ((1 : ℝ), (1 : ℝ))) :
    voronoi_build_cell 3 vor_empty dCE vertices (fun _ => partCE)
        (fun _ => true) 0 =
      Except.ok (vor_empty, fun j => if j = (0 : ℤ) then
        voronoi_finalize_cell partCE 0 0 0 0 0 DBL_MAX 0 0 else partCE) := by
  have hvor : vor_empty.cell_pair_connections = [] := rfl
  have hpx0 : partCE.x.a0 = 0 := rfl
  have hpx1 : partCE.x.a1 = 0 := rfl
  have hvs : dCE.vertex_start = 0 := rfl
  have hve : dCE.vertex_end = 1 := rfl
  have hvert0 : dCE.vertices 0 = ((0 : ℝ), (0 : ℝ)) := rfl
  have hvt : dCE.vertex_triangles 0 = 3 := rfl
  have hvti : dCE.vertex_triangle_index 0 = 0 := rfl
  have htri : dCE.triangles 3 = triCE := rfl
  have htv : triCE.vertices 1 = 1 := rfl
  have htn : triCE.neighbours 1 = 3 := rfl
  have hti : triCE.index_in_neighbour 1 = 0 := rfl
  norm_num [voronoi_build_cell, hvor, hpx0, hpx1, hvs, hve, hvert0, hvt,
    hvti, htri, htv, htn, hti, hv, voronoi_walk_loop_done,
    voronoi_build_count_face, addPairCE,
    voronoi_compute_centroid_volume_triangle,
    geometry2d_compute_centroid_triangle]

/-- C5 counterexample: a concrete voronoi_build in which the active
generator 0 accumulates cell volume exactly 0 (its ring closes immediately
and the single fan triangle is degenerate) and whose cell is nevertheless
finalized: the particle's geometry volume, 42 before the build, is
overwritten with the normalized value 0 — the claim requires a near-zero
volume cell to be skipped with its geometry fields left untouched, and the
centroid normalization (the division by the accumulated volume) not to be
performed. -/
theorem c5_zero_volume_finalized_counterexample :
    partCE.geometry_volume = 42 ∧
    ∃ res : voronoi × (ℤ → part),
      voronoi_build 3 vor_empty dCE (fun _ => partCE) (fun _ => true) 1 =
        Except.ok res ∧
      (res.2 0).geometry_volume = 0 := by
  have hb : voronoi_build 3 vor_empty dCE (fun _ => partCE)
      (fun _ => true) 1 =
      Except.ok (vor_empty, fun j => if j = (0 : ℤ) then
        voronoi_finalize_cell partCE 0 0 0 0 0 DBL_MAX 0 0 else partCE) := by
    have hcell := buildCellCE
      (fun ix => [((1 : ℝ), (1 : ℝ))].getD ix.toNat (0, 0)) rfl
    norm_num [List.getD_eq_getElem?_getD] at hcell
    norm_num [voronoi_build, vertsCE_eval, List.range_succ, hcell]
  refine ⟨rfl, ⟨_, hb, ?_⟩⟩
  norm_num [voronoi_finalize_cell]
